import Mathlib

/-!
Verification development for the core of a Raft consensus library.

Shallow embedding of the C sources:
- recv_append_entries_result.c  (recvAppendEntriesResult)
- recv_install_snapshot.c       (recvInstallSnapshot)
- uv_prepare.c                  (open-segment prepare pool)
- the snapshot store            (uvSnapshotCompare, uvSnapshotKeepLastTwo,
                                 uvSnapshotPutWorkCb, uvSnapshotLoadMeta)
- the client entry points       (raft_apply, clientChangeConfiguration,
                                 raft_assign, raft_remove)

Pure functions are translated directly; fallible collaborators that live
outside the translated sources (memory allocation, disk writes, the
replication engine) are passed in as explicit outcome parameters or
modelled from the specification, as noted on each definition.
-/

/-! ## Error codes (from raft.h) -/

def RAFT_NOMEM : Nat := 1
def RAFT_BADID : Nat := 2
def RAFT_DUPLICATEID : Nat := 3
def RAFT_BADROLE : Nat := 5
def RAFT_MALFORMED : Nat := 6
def RAFT_NOTLEADER : Nat := 7
def RAFT_CANTCHANGE : Nat := 11
def RAFT_CORRUPT : Nat := 12
def RAFT_CANCELED : Nat := 13
def RAFT_NOCONNECTION : Nat := 16
def RAFT_IOERR : Nat := 18
def RAFT_NOTFOUND : Nat := 19

/-! ## Replica data model -/

/-- Replica role, from the `RAFT_UNAVAILABLE .. RAFT_LEADER` enum. -/
inductive RaftState where
  | unavailable
  | follower
  | candidate
  | leader
deriving DecidableEq, Repr

/-- Server role in a configuration (`RAFT_STANDBY`, `RAFT_VOTER`, `RAFT_SPARE`). -/
inductive Role where
  | standby
  | voter
  | spare
deriving DecidableEq, Repr

/-- One server of a configuration. -/
structure Server where
  id : Nat
  address : String
  role : Role
deriving DecidableEq, Repr

/-- An ordered list of servers. -/
structure Configuration where
  servers : List Server
deriving DecidableEq, Repr

/-- `configurationGet`: find the server with the given id, if any. -/
def configurationGet (c : Configuration) (id : Nat) : Option Server :=
  c.servers.find? (fun s => s.id == id)

/-- `configurationIndexOf`: position of the server with the given id. -/
def configurationIndexOfId (c : Configuration) (id : Nat) : Option Nat :=
  c.servers.findIdx? (fun s => s.id == id)

/-- `configurationRemove`: drop the server with the given id.  (The caller
has already checked that the id is present.) -/
def configurationRemove (c : Configuration) (id : Nat) : Configuration :=
  { servers := c.servers.filter (fun s => s.id ≠ id) }

/-- Set the role of the server at position `i` of the configuration. -/
def configurationSetRole (c : Configuration) (i : Nat) (role : Role) : Configuration :=
  match c.servers.get? i with
  | some s => { servers := c.servers.set i { s with role := role } }
  | none => c

/-- Log entry type. -/
inductive EntryType where
  | command
  | barrier
  | config
deriving DecidableEq, Repr

/-- One in-memory log entry (payload bytes abstracted away). -/
structure Entry where
  term : Nat
  etype : EntryType
deriving DecidableEq, Repr

/-- Modelled from the spec: the in-memory log of section 4.3, a contiguous
range of entries `[offset+1 .. offset+entries.length]` where `offset` is the
snapshot last index pinning the prefix.  (The log container itself is not
among the translated sources; only its callers are.) -/
structure RaftLog where
  offset : Nat
  entries : List Entry
deriving DecidableEq, Repr

/-- `logLastIndex`: index of the last entry (or the snapshot boundary). -/
def logLastIndex (l : RaftLog) : Nat :=
  l.offset + l.entries.length

/-- Modelled from the spec: `append(term, type, payload)` of section 4.3. -/
def logAppend (l : RaftLog) (term : Nat) (etype : EntryType) : RaftLog :=
  { l with entries := l.entries ++ [{ term := term, etype := etype }] }

/-- Modelled from the spec: `logAppendCommands` appends `n` command
entries with the given term (section 4.3); treated as atomic, failure is
signalled by the caller through an outcome parameter. -/
def logAppendCommands (l : RaftLog) (term : Nat) (n : Nat) : RaftLog :=
  { l with entries := l.entries ++ List.replicate n { term := term, etype := EntryType.command } }

/-- Modelled from the spec: `logAppendConfiguration` appends one
configuration entry. -/
def logAppendConfiguration (l : RaftLog) (term : Nat) : RaftLog :=
  logAppend l term EntryType.config

/-- Modelled from the spec: `truncate(from_i)` drops entry `from_i` and all
entries above it (section 4.3). -/
def logTruncate (l : RaftLog) (from_i : Nat) : RaftLog :=
  { l with entries := l.entries.take (from_i - 1 - l.offset) }

/-- Modelled from the spec: `discard(from_i)` drops `from_i` and above
without reclaiming payloads; used on append-error rollback (section 4.3).
Its effect on the index range is the same as `truncate`. -/
def logDiscard (l : RaftLog) (from_i : Nat) : RaftLog :=
  logTruncate l from_i

/-- Leader-side progress for one follower (section 4.4). -/
structure Progress where
  next_index : Nat
  match_index : Nat
deriving DecidableEq, Repr

/-- The replica state: the fields of `struct raft` that the translated
functions read or write. -/
structure Raft where
  id : Nat
  state : RaftState
  current_term : Nat
  voted_for : Nat
  current_leader_id : Nat
  election_timer_start : Nat
  configuration : Configuration
  configuration_uncommitted_index : Nat
  log : RaftLog
  progress : List Progress
  commit_index : Nat
  requests : List Nat
  leader_change : Bool
  promotee_id : Nat
  round_number : Nat
  round_index : Nat
  round_start : Nat
  transfer : Bool
deriving DecidableEq, Repr

/-- `progressMatchIndex` of the server at position `i`. -/
def progressMatchIndex (r : Raft) (i : Nat) : Nat :=
  match r.progress.get? i with
  | some p => p.match_index
  | none => 0

/-! ## RPC receive paths -/

/-- The `AppendEntriesResult` wire message. -/
structure AppendEntriesResult where
  term : Nat
  rejected : Nat
  last_log_index : Nat
deriving DecidableEq, Repr

/-- The `InstallSnapshot` wire message (config/data payloads abstracted). -/
structure InstallSnapshotArgs where
  term : Nat
  last_index : Nat
  last_term : Nat
deriving DecidableEq, Repr

/-- Modelled from the spec: `recvEnsureMatchingTerms` (recv.c is not among
the translated sources).  Per the universal rule of section 4.6: a message
term greater than `currentTerm` forces `currentTerm` to that term, clears
the vote and converts to follower; the returned flag is negative when the
local term is higher, zero when equal, positive when the message term was
higher. -/
def recvEnsureMatchingTerms (r : Raft) (term : Nat) : Raft × Int :=
  if term < r.current_term then (r, -1)
  else if term = r.current_term then (r, 0)
  else ({ r with current_term := term, voted_for := 0,
                 state := RaftState.follower }, 1)

/-- Modelled from the spec: `convertToFollower` steps the replica down
(section 4.6). -/
def convertToFollower (r : Raft) : Raft :=
  { r with state := RaftState.follower }

/-- Modelled from the spec: `recvUpdateLeader` records the current leader
(section 4.6). -/
def recvUpdateLeader (r : Raft) (id : Nat) : Raft :=
  { r with current_leader_id := id }

/-- Embedding of `recvAppendEntriesResult` (recv_append_entries_result.c).
`upd` stands for `replicationUpdate`, which lives outside the translated
sources; it is passed in as a function returning `(rv, new state)`.
The result is `(rv, new state)`. -/
def recvAppendEntriesResult
    (upd : Raft → Server → AppendEntriesResult → Nat × Raft)
    (r : Raft) (id : Nat) (result : AppendEntriesResult) : Nat × Raft :=
  if r.state ≠ RaftState.leader then (0, r)
  else
    let rm := recvEnsureMatchingTerms r result.term
    if rm.2 < 0 then (0, rm.1)
    else if rm.2 > 0 then (0, rm.1)
    else
      match configurationGet rm.1.configuration id with
      | none => (0, rm.1)
      | some server => upd rm.1 server result

/-- Embedding of `recvInstallSnapshot` (recv_install_snapshot.c).
`ris` stands for `replicationInstallSnapshot` (outside the translated
sources), returning `(rv, new state, rejected, async)`; `now` is the value
of `io->time`.  The reply message itself is sent to the transport and is
not part of the returned state; the result is `(rv, new state)`. -/
def recvInstallSnapshot
    (ris : Raft → InstallSnapshotArgs → Nat × Raft × Nat × Bool)
    (now : Nat)
    (r : Raft) (id : Nat) (args : InstallSnapshotArgs) : Nat × Raft :=
  let rm := recvEnsureMatchingTerms r args.term
  if rm.2 < 0 then (0, rm.1)
  else
    let r2 := if rm.1.state = RaftState.candidate then convertToFollower rm.1 else rm.1
    let r3 := recvUpdateLeader r2 id
    let r4 := { r3 with election_timer_start := now }
    let out := ris r4 args
    (out.1, out.2.1)

/-! ## Client entry points -/

/-- Embedding of `raft_apply` (client.c).  `appendOk` is the outcome of the
in-memory `logAppendCommands` (false stands for an allocation failure,
returning `RAFT_NOMEM`); `triggerRv` is the return value of
`replicationTrigger`.  The pending request is recorded by the index it was
queued with.  Result is `(rv, new state)`. -/
def raft_apply (appendOk : Bool) (triggerRv : Nat)
    (r : Raft) (n : Nat) : Nat × Raft :=
  if r.state ≠ RaftState.leader ∨ r.transfer then (RAFT_NOTLEADER, r)
  else
    let index := logLastIndex r.log + 1
    if ¬ appendOk then (RAFT_NOMEM, r)
    else
      let r1 := { r with log := logAppendCommands r.log r.current_term n,
                         requests := r.requests ++ [index] }
      if triggerRv ≠ 0 then
        (triggerRv, { r1 with log := logDiscard r1.log index,
                              requests := r.requests })
      else (0, r1)

/-- Modelled from the spec: `progressRebuildArray` resizes the leader
progress array to the new configuration; servers already present keep
their progress, new servers start with `next = last_index + 1` and
`match = 0` (section 4.4). -/
def progressRebuildArray (r : Raft) (configuration : Configuration) : List Progress :=
  configuration.servers.map (fun s =>
    match configurationIndexOfId r.configuration s.id with
    | some i =>
      match r.progress.get? i with
      | some p => p
      | none => { next_index := logLastIndex r.log + 1, match_index := 0 }
    | none => { next_index := logLastIndex r.log + 1, match_index := 0 })

/-- Embedding of `clientChangeConfiguration` (client.c).  Outcome
parameters: `appendOk` for `logAppendConfiguration` (false is an
allocation failure, `RAFT_NOMEM`), `rebuildOk` for `progressRebuildArray`,
`triggerRv` for `replicationTrigger`.  `inPlace` is true when the caller
passed `&r->configuration` itself (the `raft_assign` immediate path), in
which case the configuration-replacement step is skipped, mirroring the
pointer-equality test of the source.  Note the source's failure handling,
kept faithfully here: a `progressRebuildArray` failure jumps to `err`
without truncating the appended entry, and a `replicationTrigger` failure
truncates the entry but (per the source TODO) restores neither the
progress array nor the previous configuration. -/
def clientChangeConfiguration (appendOk rebuildOk : Bool) (triggerRv : Nat)
    (inPlace : Bool) (r : Raft) (configuration : Configuration) : Nat × Raft :=
  let index := logLastIndex r.log + 1
  if ¬ appendOk then (RAFT_NOMEM, r)
  else
    let r1 := { r with log := logAppendConfiguration r.log r.current_term }
    if configuration.servers.length ≠ r1.configuration.servers.length ∧ ¬ rebuildOk then
      (RAFT_NOMEM, r1)
    else
      let r2 :=
        if configuration.servers.length ≠ r1.configuration.servers.length
        then { r1 with progress := progressRebuildArray r1 configuration }
        else r1
      let r3 := if ¬ inPlace then { r2 with configuration := configuration } else r2
      if triggerRv ≠ 0 then
        (triggerRv, { r3 with log := logTruncate r3.log index })
      else
        (0, { r3 with configuration_uncommitted_index := index })

/-- Modelled from the spec: `membershipCanChangeConfiguration`
(membership.c is not among the translated sources).  Per sections 4.6/7:
client ops on a non-leader or during a transfer fail with `not-leader`;
a change still in flight or a not-yet-committed configuration fails with
`conf-busy` (`RAFT_CANTCHANGE`). -/
def membershipCanChangeConfiguration (r : Raft) : Nat :=
  if r.state ≠ RaftState.leader ∨ r.transfer then RAFT_NOTLEADER
  else if r.leader_change ∨ r.configuration_uncommitted_index ≠ 0 then RAFT_CANTCHANGE
  else 0

/-- Modelled from the spec: `raft_configuration_add` appends a server,
failing with `RAFT_DUPLICATEID` when the id is already present. -/
def configurationAdd (c : Configuration) (id : Nat) (address : String)
    (role : Role) : Nat × Configuration :=
  if (configurationGet c id).isSome then (RAFT_DUPLICATEID, c)
  else (0, { servers := c.servers ++ [{ id := id, address := address, role := role }] })

/-- Embedding of `raft_add` (client.c).  `copyOk` is the outcome of
`configurationCopy` (value semantics make the copy itself trivial). -/
def raft_add (copyOk appendOk rebuildOk : Bool) (triggerRv : Nat)
    (r : Raft) (id : Nat) (address : String) : Nat × Raft :=
  let mrv := membershipCanChangeConfiguration r
  if mrv ≠ 0 then (mrv, r)
  else if ¬ copyOk then (RAFT_NOMEM, r)
  else
    let ac := configurationAdd r.configuration id address Role.spare
    if ac.1 ≠ 0 then (ac.1, r)
    else
      let cc := clientChangeConfiguration appendOk rebuildOk triggerRv false r ac.2
      if cc.1 ≠ 0 then (cc.1, cc.2)
      else (0, { cc.2 with leader_change := true })

/-- Embedding of `raft_assign` (client.c).  The role argument is already
one of the three valid roles, so the `RAFT_BADROLE` check on out-of-range
integers is statically satisfied.  `rp` stands for `replicationProgress`
(outside the translated sources; its failure is explicitly non-fatal in
the source), `now` is `io->time`. -/
def raft_assign (appendOk rebuildOk : Bool) (triggerRv : Nat)
    (rp : Raft → Nat → Raft) (now : Nat)
    (r : Raft) (id : Nat) (role : Role) : Nat × Raft :=
  let mrv := membershipCanChangeConfiguration r
  if mrv ≠ 0 then (mrv, r)
  else
    match configurationGet r.configuration id with
    | none => (RAFT_NOTFOUND, r)
    | some server =>
      if server.role = role then (RAFT_BADROLE, r)
      else
        let server_index := (configurationIndexOfId r.configuration id).getD 0
        let last_index := logLastIndex r.log
        let r0 := { r with leader_change := true }
        if role ≠ Role.voter ∨ progressMatchIndex r0 server_index = last_index then
          let rc := { r0 with configuration :=
                        configurationSetRole r0.configuration server_index role }
          let cc := clientChangeConfiguration appendOk rebuildOk triggerRv true
                      rc rc.configuration
          if cc.1 ≠ 0 then
            (cc.1, { cc.2 with configuration :=
                       configurationSetRole cc.2.configuration server_index server.role })
          else (0, cc.2)
        else
          let r1 := { r0 with promotee_id := server.id,
                              round_number := 1,
                              round_index := last_index,
                              round_start := now }
          (0, rp r1 server_index)

/-- Embedding of `raft_remove` (client.c). -/
def raft_remove (copyOk appendOk rebuildOk : Bool) (triggerRv : Nat)
    (r : Raft) (id : Nat) : Nat × Raft :=
  let mrv := membershipCanChangeConfiguration r
  if mrv ≠ 0 then (mrv, r)
  else
    match configurationGet r.configuration id with
    | none => (RAFT_BADID, r)
    | some _ =>
      if ¬ copyOk then (RAFT_NOMEM, r)
      else
        let configuration := configurationRemove r.configuration id
        let cc := clientChangeConfiguration appendOk rebuildOk triggerRv false r configuration
        if cc.1 ≠ 0 then (cc.1, cc.2)
        else (0, { cc.2 with leader_change := true })

/-! ## The open-segment prepare pool (uv_prepare.c) -/

/-- `TARGET_POOL_SIZE`: number of open segments kept ready for writing. -/
def TARGET_POOL_SIZE : Nat := 2

/-- The fields of `struct uv` that uv_prepare.c reads or writes.  Pending
prepare requests and pool segments are identified by number; callback
invocations are recorded in `completed` as `(request, status)` pairs, in
invocation order.  The inflight creation carries its counter and its
`canceled` flag. -/
structure UvState where
  prepare_reqs : List Nat
  prepare_pool : List Nat
  prepare_inflight : Option (Nat × Bool)
  prepare_next_counter : Nat
  errored : Bool
  closing : Bool
  completed : List (Nat × Nat)
deriving DecidableEq, Repr

/-- `uvPrepareFlushRequests`: pop every pending request FIFO and invoke
its callback with the given status. -/
def uvPrepareFlushRequests (uv : UvState) (status : Nat) : UvState :=
  { uv with prepare_reqs := [],
            completed := uv.completed ++ uv.prepare_reqs.map (fun req => (req, status)) }

/-- The loop of `uvPrepareProcessRequests`: while both the request queue
and the pool are non-empty, pop the head of each and complete the request
with status 0.  Returns the completions and the remaining queues. -/
def processPairs : List Nat → List Nat → List (Nat × Nat) × List Nat × List Nat
  | req :: reqs, _seg :: pool =>
    let rest := processPairs reqs pool
    ((req, 0) :: rest.1, rest.2)
  | reqs, pool => ([], reqs, pool)

/-- `uvPrepareProcessRequests`: satisfy pending requests from the pool. -/
def uvPrepareProcessRequests (uv : UvState) : UvState :=
  let out := processPairs uv.prepare_reqs uv.prepare_pool
  { uv with prepare_reqs := out.2.1,
            prepare_pool := out.2.2,
            completed := uv.completed ++ out.1 }

/-- `prepareSegment`: start creating a new open segment file.  `mOk` is
the outcome of the `raft_malloc` (false gives `RAFT_NOMEM`), `qOk` the
outcome of `uv_queue_work` (false gives `RAFT_IOERR`); on success the
creation is recorded as inflight and the counter advanced. -/
def prepareSegment (mOk qOk : Bool) (uv : UvState) : Nat × UvState :=
  if ¬ mOk then (RAFT_NOMEM, uv)
  else if ¬ qOk then (RAFT_IOERR, uv)
  else (0, { uv with prepare_inflight := some (uv.prepare_next_counter, false),
                     prepare_next_counter := uv.prepare_next_counter + 1 })

/-- `maybePrepareSegment`: if fewer than `TARGET_POOL_SIZE` segments are
pooled and no creation is inflight, start one; on failure flush all
pending requests with the failure code and mark the instance errored. -/
def maybePrepareSegment (mOk qOk : Bool) (uv : UvState) : UvState :=
  if uv.prepare_inflight.isSome then uv
  else if uv.prepare_pool.length < TARGET_POOL_SIZE then
    let out := prepareSegment mOk qOk uv
    if out.1 ≠ 0 then
      { uvPrepareFlushRequests out.2 out.1 with errored := true }
    else out.2
  else uv

/-- `uvPrepareCreateFileAfterWorkCb`: completion of the threadpool
allocate-and-sync work.  `status` is the status the worker stored (any
nonzero value stands for a failure of `UvFsAllocateFile` or
`UvFsSyncDir`, of whatever kind); `mOk`/`qOk` feed the chained
`maybePrepareSegment`. -/
def uvPrepareCreateFileAfterWorkCb (mOk qOk : Bool) (status : Nat)
    (uv : UvState) : UvState :=
  match uv.prepare_inflight with
  | none => uv
  | some seg =>
    let uv1 := { uv with prepare_inflight := none }
    if seg.2 then uv1
    else if status ≠ 0 then
      { uvPrepareFlushRequests uv1 RAFT_IOERR with errored := true }
    else
      let uv2 := { uv1 with prepare_pool := uv1.prepare_pool ++ [seg.1] }
      let uv3 := uvPrepareProcessRequests uv2
      maybePrepareSegment mOk qOk uv3

/-- `uvPrepare`: enqueue a request, satisfy it from the pool when
possible, and keep the pool topped up. -/
def uvPrepare (mOk qOk : Bool) (uv : UvState) (req : Nat) : UvState :=
  let uv1 := { uv with prepare_reqs := uv.prepare_reqs ++ [req] }
  let uv2 := uvPrepareProcessRequests uv1
  maybePrepareSegment mOk qOk uv2

/-- `uvPrepareClose`: fail all pending requests with `RAFT_CANCELED`,
remove the pooled segments, and mark any inflight creation canceled. -/
def uvPrepareClose (uv : UvState) : UvState :=
  let uv1 := uvPrepareFlushRequests uv RAFT_CANCELED
  let uv2 := { uv1 with prepare_pool := [] }
  match uv2.prepare_inflight with
  | some seg => { uv2 with prepare_inflight := some (seg.1, true) }
  | none => uv2

/-- The quiescent-moment operations on the prepare pool: an incoming
prepare request, the completion callback of an inflight creation, and
close. -/
inductive UvOp where
  | request (req : Nat) (mOk qOk : Bool)
  | complete (status : Nat) (mOk qOk : Bool)
  | close
deriving DecidableEq, Repr

/-- One prepare-pool operation, with its enabling guard: requests arrive
only while not closing, the completion callback only while a creation is
inflight, and close happens once. -/
def uvStep (uv : UvState) (op : UvOp) : UvState :=
  match op with
  | UvOp.request req mOk qOk => if uv.closing then uv else uvPrepare mOk qOk uv req
  | UvOp.complete status mOk qOk =>
    if uv.prepare_inflight.isSome
    then uvPrepareCreateFileAfterWorkCb mOk qOk status uv
    else uv
  | UvOp.close => if uv.closing then uv else uvPrepareClose { uv with closing := true }

/-- The initial prepare-pool state of a fresh uv instance. -/
def uvInit : UvState :=
  { prepare_reqs := [], prepare_pool := [], prepare_inflight := none,
    prepare_next_counter := 1, errored := false, closing := false,
    completed := [] }

/-- Number of inflight segment creations (the source keeps at most one,
as a single pointer). -/
def inflightCount (uv : UvState) : Nat :=
  if uv.prepare_inflight.isSome then 1 else 0

/-- The inductive pool bound: pooled segments plus inflight creations
never exceed `TARGET_POOL_SIZE`. -/
def poolInv (uv : UvState) : Prop :=
  uv.prepare_pool.length + inflightCount uv ≤ TARGET_POOL_SIZE

/-! ## The snapshot store -/

/-- A snapshot as identified by its metadata filename
`snapshot-term-index-timestamp.meta`. -/
structure UvSnapshotInfo where
  term : Nat
  index : Nat
  timestamp : Nat
deriving DecidableEq, Repr

/-- A file of the snapshot store: the metadata file or the data file of a
given snapshot. -/
inductive SnapFile where
  | meta (s : UvSnapshotInfo)
  | data (s : UvSnapshotInfo)
deriving DecidableEq, Repr

/-- `uvSnapshotCompare`: qsort comparator deciding which snapshot is more
recent: higher term wins, then higher index, then higher timestamp. -/
def uvSnapshotCompare (s1 s2 : UvSnapshotInfo) : Int :=
  if s1.term ≠ s2.term then (if s1.term < s2.term then -1 else 1)
  else if s1.index ≠ s2.index then (if s1.index < s2.index then -1 else 1)
  else if s1.timestamp < s2.timestamp then -1 else 1

/-- The removal loop of `uvSnapshotKeepLastTwo`: for each listed snapshot
remove its metadata file and then its data file. -/
def uvSnapshotRemoveFiles : List UvSnapshotInfo → List SnapFile
  | [] => []
  | s :: rest => SnapFile.meta s :: SnapFile.data s :: uvSnapshotRemoveFiles rest

/-- `uvSnapshotKeepLastTwo`: given the snapshots sorted oldest-first,
leave at least the last two and remove the files of all the others.
Returns the list of removed files. -/
def uvSnapshotKeepLastTwo (snapshots : List UvSnapshotInfo) : List SnapFile :=
  if snapshots.length ≤ 2 then []
  else uvSnapshotRemoveFiles (snapshots.take (snapshots.length - 2))

/-- The steps of `uvSnapshotPutWorkCb`, in source order. -/
inductive PutStep where
  | writeMeta
  | writeData
  | syncDir
  | prune
deriving DecidableEq, Repr

/-- The full step sequence of a successful snapshot put. -/
def putStepsAll : List PutStep :=
  [PutStep.writeMeta, PutStep.writeData, PutStep.syncDir, PutStep.prune]

/-- `uvSnapshotPutWorkCb`: write the metadata file, then the data file,
then fsync the directory, then remove old segments and snapshots.
`metaOk`/`dataOk`/`syncOk` are the outcomes of the three filesystem
steps; `pruneRv` is the return value of
`removeOldSegmentsAndSnapshots`.  Returns the stored status and the list
of steps attempted, in order. -/
def uvSnapshotPutWorkCb (metaOk dataOk syncOk : Bool) (pruneRv : Nat) :
    Nat × List PutStep :=
  if ¬ metaOk then (RAFT_IOERR, [PutStep.writeMeta])
  else if ¬ dataOk then (RAFT_IOERR, [PutStep.writeMeta, PutStep.writeData])
  else if ¬ syncOk then
    (RAFT_IOERR, [PutStep.writeMeta, PutStep.writeData, PutStep.syncDir])
  else if pruneRv ≠ 0 then (pruneRv, putStepsAll)
  else (0, putStepsAll)

/-- The known on-disk format constant `UV__DISK_FORMAT`. -/
def UV_DISK_FORMAT : Nat := 1

/-- `META_MAX_CONFIGURATION_SIZE`: arbitrary maximum configuration size. -/
def META_MAX_CONFIGURATION_SIZE : Nat := 1024 * 1024

/-- The raw content of a snapshot metadata file: the four 64-bit header
words (format, crc, configuration index, configuration length) followed
by the remaining bytes of the file. -/
structure SnapMetaFile where
  format : Nat
  crc : Nat
  configuration_index : Nat
  conf_len : Nat
  conf_bytes : List Nat
deriving DecidableEq, Repr

/-- A successfully parsed snapshot metadata file. -/
structure LoadedSnapshotMeta where
  term : Nat
  index : Nat
  configuration_index : Nat
  configuration : Configuration
deriving DecidableEq, Repr

/-- Embedding of `uvSnapshotLoadMeta`.  `crcFn` stands for the chained
`byteCrc32` over the last two header words and the configuration bytes,
and `decodeFn` for `configurationDecode`; both live outside the
translated sources and are passed in.  A read past the end of the file
is an `RAFT_IOERR`, mirroring a failed `UvFsReadInto`. -/
def uvSnapshotLoadMeta (crcFn : List Nat → List Nat → Nat)
    (decodeFn : List Nat → Except Nat Configuration)
    (info : UvSnapshotInfo) (f : SnapMetaFile) :
    Except Nat LoadedSnapshotMeta :=
  if f.format ≠ UV_DISK_FORMAT then Except.error RAFT_MALFORMED
  else if META_MAX_CONFIGURATION_SIZE < f.conf_len then Except.error RAFT_CORRUPT
  else if f.conf_len = 0 then Except.error RAFT_CORRUPT
  else if f.conf_bytes.length < f.conf_len then Except.error RAFT_IOERR
  else if f.crc ≠ crcFn [f.configuration_index, f.conf_len]
                        (f.conf_bytes.take f.conf_len) then
    Except.error RAFT_CORRUPT
  else
    match decodeFn (f.conf_bytes.take f.conf_len) with
    | Except.error rv => Except.error rv
    | Except.ok conf =>
      Except.ok { term := info.term, index := info.index,
                  configuration_index := f.configuration_index,
                  configuration := conf }

/-! ## Concrete sample states, used to instantiate theorems -/

/-- Sample voter with id 1. -/
def serverA : Server := { id := 1, address := "a", role := Role.voter }

/-- Sample voter with id 2. -/
def serverB : Server := { id := 2, address := "b", role := Role.voter }

/-- Sample two-voter configuration. -/
def confAB : Configuration := { servers := [serverA, serverB] }

/-- The empty in-memory log. -/
def logEmpty : RaftLog := { offset := 0, entries := [] }

/-- A follower replica of server 1 in term 1 with an empty log. -/
def raftBase : Raft :=
  { id := 1, state := RaftState.follower, current_term := 1, voted_for := 0,
    current_leader_id := 0, election_timer_start := 0,
    configuration := confAB, configuration_uncommitted_index := 0,
    log := logEmpty, progress := [], commit_index := 0, requests := [],
    leader_change := false, promotee_id := 0, round_number := 0,
    round_index := 0, round_start := 0, transfer := false }

/-- The same replica as leader, with a fresh progress array. -/
def raftLeader : Raft :=
  { raftBase with
    state := RaftState.leader,
    progress := [{ next_index := 1, match_index := 0 },
                 { next_index := 1, match_index := 0 }] }

/-- A `replicationUpdate` stand-in that changes nothing. -/
def updIdent : Raft → Server → AppendEntriesResult → Nat × Raft :=
  fun r _ _ => (0, r)

/-- A `replicationInstallSnapshot` stand-in that changes nothing. -/
def risIdent : Raft → InstallSnapshotArgs → Nat × Raft × Nat × Bool :=
  fun r _ => (0, r, 0, false)

/-- An `AppendEntriesResult` carrying term 2. -/
def aerTerm2 : AppendEntriesResult := { term := 2, rejected := 0, last_log_index := 0 }

/-- An `InstallSnapshot` carrying term 2. -/
def isArgs2 : InstallSnapshotArgs := { term := 2, last_index := 5, last_term := 1 }

/-- A fresh uv instance with one pending prepare request. -/
def uvOneReq : UvState := { uvInit with prepare_reqs := [7] }

/-- A uv instance with a pending request and a (non-canceled) inflight
segment creation. -/
def uvInflightReq : UvState :=
  { uvInit with prepare_reqs := [3], prepare_inflight := some (5, false) }

/-- Three snapshots, listed oldest-first. -/
def snapsSorted : List UvSnapshotInfo :=
  [{ term := 1, index := 5, timestamp := 10 },
   { term := 2, index := 3, timestamp := 4 },
   { term := 2, index := 7, timestamp := 1 }]

/-- A crc stand-in. -/
def crcZero : List Nat → List Nat → Nat := fun _ _ => 0

/-- A `configurationDecode` stand-in. -/
def decodeNone : List Nat → Except Nat Configuration :=
  fun _ => Except.error RAFT_MALFORMED

/-- A sample snapshot name. -/
def infoSample : UvSnapshotInfo := { term := 3, index := 9, timestamp := 2 }

/-- A metadata file with a valid format and a zero-length configuration. -/
def metaZeroLen : SnapMetaFile :=
  { format := 1, crc := 0, configuration_index := 4, conf_len := 0,
    conf_bytes := [] }

/-! ## Theorems -/

/-- C1 (counterexample): in the `recvAppendEntriesResult` receive path a
follower that gets a result carrying term 2 while its own term is 1
returns 0 with its state untouched: the higher term is NOT adopted, so
the universal term rule is not applied before the role check of this
receive path. -/
theorem C1_counterexample :
    raftBase.current_term < aerTerm2.term ∧
    recvAppendEntriesResult updIdent raftBase 2 aerTerm2 = (0, raftBase) ∧
    raftBase.current_term ≠ aerTerm2.term := by
  refine ⟨by decide, rfl, by decide⟩

/-- C1 (amended): the universal higher-term rule is applied before any
role-specific logic in `recvInstallSnapshot` (for a replica in any state,
the state after the call carries the message term, a cleared vote and the
follower role, provided `replicationInstallSnapshot` preserves those
fields), while `recvAppendEntriesResult` first ignores the message when
the replica is not leader and applies the rule only on a leader, where a
higher term makes it step down before any progress handling. -/
theorem C1_amended
    (ris : Raft → InstallSnapshotArgs → Nat × Raft × Nat × Bool)
    (upd : Raft → Server → AppendEntriesResult → Nat × Raft)
    (now : Nat) (r r2 : Raft) (id id2 : Nat)
    (args : InstallSnapshotArgs) (res : AppendEntriesResult)
    (hris : ∀ s a, ((ris s a).2.1.current_term = s.current_term) ∧
                   ((ris s a).2.1.voted_for = s.voted_for) ∧
                   ((ris s a).2.1.state = s.state))
    (hterm : r.current_term < args.term)
    (hleader : r2.state = RaftState.leader)
    (hterm2 : r2.current_term < res.term) :
    ((recvInstallSnapshot ris now r id args).2.current_term = args.term ∧
     (recvInstallSnapshot ris now r id args).2.voted_for = 0 ∧
     (recvInstallSnapshot ris now r id args).2.state = RaftState.follower) ∧
    recvAppendEntriesResult upd r2 id2 res =
      (0, { r2 with current_term := res.term, voted_for := 0,
                    state := RaftState.follower }) := by
  constructor
  · have h1 : ¬ args.term < r.current_term := by omega
    have h2 : ¬ args.term = r.current_term := by omega
    unfold recvInstallSnapshot recvEnsureMatchingTerms
    simp only [h1, if_false, h2, convertToFollower, recvUpdateLeader]
    obtain ⟨e1, e2, e3⟩ := hris
      { r with current_term := args.term, voted_for := 0,
               state := RaftState.follower, current_leader_id := id,
               election_timer_start := now } args
    simp [e1, e2, e3]
  · have h1 : ¬ res.term < r2.current_term := by omega
    have h2 : ¬ res.term = r2.current_term := by omega
    unfold recvAppendEntriesResult recvEnsureMatchingTerms
    simp [hleader, h1, h2]

/-- C1 (witness for the amended theorem), at a follower receiving an
InstallSnapshot of term 2 and a leader receiving a result of term 2. -/
theorem C1_amended_witness :
    ((recvInstallSnapshot risIdent 7 raftBase 2 isArgs2).2.current_term = isArgs2.term ∧
     (recvInstallSnapshot risIdent 7 raftBase 2 isArgs2).2.voted_for = 0 ∧
     (recvInstallSnapshot risIdent 7 raftBase 2 isArgs2).2.state = RaftState.follower) ∧
    recvAppendEntriesResult updIdent raftLeader 2 aerTerm2 =
      (0, { raftLeader with current_term := aerTerm2.term, voted_for := 0,
                            state := RaftState.follower }) :=
  C1_amended risIdent updIdent 7 raftBase raftLeader 2 2 isArgs2 aerTerm2
    (fun _ _ => ⟨rfl, rfl, rfl⟩) (by decide) rfl (by decide)

/-- C9 (counterexample): a leader in term 1 receiving a result of term 2
from a sender that is not in the current configuration does NOT leave the
replica state unchanged: the higher term forces a step-down first. -/
theorem C9_counterexample :
    raftLeader.state = RaftState.leader ∧
    configurationGet raftLeader.configuration 9 = none ∧
    (recvAppendEntriesResult updIdent raftLeader 9 aerTerm2).2 ≠ raftLeader := by
  refine ⟨rfl, rfl, ?_⟩
  intro h
  have h2 : (recvAppendEntriesResult updIdent raftLeader 9 aerTerm2).2.current_term = 2 := rfl
  rw [h] at h2
  exact absurd h2 (by decide)

/-- C9 (amended): on a leader, when the result's term is not greater than
the current term and the sender's id is not in the current configuration,
`recvAppendEntriesResult` returns 0 and leaves the replica state
completely unchanged. -/
theorem C9_amended
    (upd : Raft → Server → AppendEntriesResult → Nat × Raft)
    (r : Raft) (id : Nat) (res : AppendEntriesResult)
    (hleader : r.state = RaftState.leader)
    (hterm : res.term ≤ r.current_term)
    (hid : configurationGet r.configuration id = none) :
    recvAppendEntriesResult upd r id res = (0, r) := by
  unfold recvAppendEntriesResult recvEnsureMatchingTerms
  rcases Nat.lt_or_ge res.term r.current_term with h | h
  · simp [hleader, h]
  · have he : res.term = r.current_term := by omega
    simp [hleader, he, hid]

/-- C9 (witness for the amended theorem): a leader ignoring a same-term
result from the removed server 9. -/
theorem C9_amended_witness :
    recvAppendEntriesResult updIdent raftLeader 9
      { term := 1, rejected := 0, last_log_index := 0 } = (0, raftLeader) :=
  C9_amended updIdent raftLeader 9
    { term := 1, rejected := 0, last_log_index := 0 } rfl (by decide) rfl

/-- Discarding from the old last index + 1 undoes an append exactly. -/
theorem logDiscard_logAppendCommands (l : RaftLog) (t n : Nat) :
    logDiscard (logAppendCommands l t n) (logLastIndex l + 1) = l := by
  unfold logDiscard logTruncate logAppendCommands logLastIndex
  have he : l.offset + l.entries.length + 1 - 1 - l.offset = l.entries.length := by omega
  simp [he, List.take_left]

/-- C2: the configuration-change rollback is incomplete.  On a concrete
leader, `raft_add` of server 3 with a failing `replicationTrigger`
truncates the appended configuration entry but leaves the replaced
configuration and the rebuilt progress array in place, instead of
restoring them to their pre-call values. -/
theorem C2_code_exhibit :
    (raft_add true true true RAFT_IOERR raftLeader 3 "c").1 = RAFT_IOERR ∧
    logLastIndex (raft_add true true true RAFT_IOERR raftLeader 3 "c").2.log =
      logLastIndex raftLeader.log ∧
    (raft_add true true true RAFT_IOERR raftLeader 3 "c").2.configuration.servers.length ≠
      raftLeader.configuration.servers.length ∧
    (raft_add true true true RAFT_IOERR raftLeader 3 "c").2.progress.length ≠
      raftLeader.progress.length := by
  refine ⟨rfl, rfl, by decide, by decide⟩

/-- C3: `raft_apply` returns the not-leader error exactly when the
replica is not leader or a transfer is in progress; and any nonzero
return leaves the log's last index and the pending-request queue exactly
as they were (the append is rolled back within the same call).
`triggerRv` ranges over the `replicationTrigger` outcomes, which per the
error taxonomy never include the not-leader code. -/
theorem C3_theorem (appendOk : Bool) (triggerRv : Nat) (r : Raft) (n : Nat)
    (htr : triggerRv ≠ RAFT_NOTLEADER) :
    ((raft_apply appendOk triggerRv r n).1 = RAFT_NOTLEADER ↔
      (r.state ≠ RaftState.leader ∨ r.transfer = true)) ∧
    ((raft_apply appendOk triggerRv r n).1 ≠ 0 →
      logLastIndex (raft_apply appendOk triggerRv r n).2.log = logLastIndex r.log ∧
      (raft_apply appendOk triggerRv r n).2.requests = r.requests) := by
  unfold raft_apply
  by_cases hg : r.state ≠ RaftState.leader ∨ r.transfer = true
  · simp [hg]
  · rcases Bool.eq_false_or_eq_true appendOk with ha | ha <;> subst ha
    · by_cases ht : triggerRv = 0
      · subst ht
        simp [hg, RAFT_NOTLEADER]
      · constructor
        · simp [hg, ht, htr]
        · intro _
          simp [hg, ht, logDiscard_logAppendCommands]
    · constructor
      · simp [hg, RAFT_NOMEM, RAFT_NOTLEADER]
      · intro _
        simp [hg]

/-- C3 (witness): on a follower, `raft_apply` fails with not-leader and
changes nothing. -/
theorem C3_witness :
    ((raft_apply true 0 raftBase 1).1 = RAFT_NOTLEADER ↔
      (raftBase.state ≠ RaftState.leader ∨ raftBase.transfer = true)) ∧
    ((raft_apply true 0 raftBase 1).1 ≠ 0 →
      logLastIndex (raft_apply true 0 raftBase 1).2.log = logLastIndex raftBase.log ∧
      (raft_apply true 0 raftBase 1).2.requests = raftBase.requests) :=
  C3_theorem true 0 raftBase 1 (by decide)

/-- C8 (counterexample): `raft_assign` called on a leader with the
unknown server id 9 fails with `RAFT_NOTFOUND`, not with the bad-id
error the claim requires. -/
theorem C8_counterexample :
    configurationGet raftLeader.configuration 9 = none ∧
    raft_assign true true 0 (fun s _ => s) 0 raftLeader 9 Role.voter =
      (RAFT_NOTFOUND, raftLeader) ∧
    RAFT_NOTFOUND ≠ RAFT_BADID := by
  refine ⟨rfl, rfl, by decide⟩

/-- C8 (amended): with the membership-change guards passing, `raft_remove`
on an unknown id fails with bad-id and `raft_assign` on an unknown id
fails with not-found, in both cases leaving the replica (in particular
its configuration) unchanged; the caller's own id is not rejected:
`raft_remove` of the replica's own id succeeds when the append and the
replication trigger succeed. -/
theorem C8_amended (r : Raft) (id : Nat)
    (copyOk appendOk rebuildOk : Bool) (triggerRv : Nat)
    (appendOk2 rebuildOk2 : Bool) (triggerRv2 : Nat)
    (rp : Raft → Nat → Raft) (now : Nat) (role : Role) (s : Server)
    (hm : membershipCanChangeConfiguration r = 0)
    (hid : configurationGet r.configuration id = none)
    (hself : configurationGet r.configuration r.id = some s) :
    raft_remove copyOk appendOk rebuildOk triggerRv r id = (RAFT_BADID, r) ∧
    raft_assign appendOk2 rebuildOk2 triggerRv2 rp now r id role =
      (RAFT_NOTFOUND, r) ∧
    (raft_remove true true true 0 r r.id).1 = 0 := by
  refine ⟨?_, ?_, ?_⟩
  · simp [raft_remove, hm, hid]
  · simp [raft_assign, hm, hid]
  · simp only [raft_remove, hm]
    simp only [hself]
    simp [clientChangeConfiguration]

/-- C8 (witness for the amended theorem) at a concrete two-voter
leader: removing the unknown id 9 gives bad-id, assigning it gives
not-found, and removing the leader's own id 1 is accepted. -/
theorem C8_amended_witness :
    raft_remove true true true 0 raftLeader 9 = (RAFT_BADID, raftLeader) ∧
    raft_assign true true 0 (fun v _ => v) 0 raftLeader 9 Role.spare =
      (RAFT_NOTFOUND, raftLeader) ∧
    (raft_remove true true true 0 raftLeader raftLeader.id).1 = 0 :=
  C8_amended raftLeader 9 true true true 0 true true 0 (fun v _ => v) 0
    Role.spare serverA rfl rfl rfl

/-- C4 (counterexample): when starting the creation of a new open
segment fails with an allocation failure (`raft_malloc` returning null in
`prepareSegment`), the pending prepare request is completed with
`RAFT_NOMEM`, not with the io-error status. -/
theorem C4_counterexample :
    (maybePrepareSegment false true uvOneReq).completed = [(7, RAFT_NOMEM)] ∧
    (maybePrepareSegment false true uvOneReq).errored = true ∧
    RAFT_NOMEM ≠ RAFT_IOERR := by
  refine ⟨rfl, rfl, by decide⟩

/-- C4 (amended): a failure of the threadpool allocate-and-sync path,
regardless of the failure's kind (any nonzero worker status), completes
every pending prepare request with the io-error status and marks the
store errored, provided the creation was not canceled by a close; a
failure to even start a creation also flushes all pending requests and
marks the store errored, but with that failure's own code (`RAFT_NOMEM`
or `RAFT_IOERR`). -/
theorem C4_amended (uv : UvState) (mOk qOk : Bool) (status : Nat) (c : Nat)
    (hin : uv.prepare_inflight = some (c, false)) (hst : status ≠ 0) :
    ((uvPrepareCreateFileAfterWorkCb mOk qOk status uv).errored = true ∧
     (uvPrepareCreateFileAfterWorkCb mOk qOk status uv).prepare_reqs = [] ∧
     (uvPrepareCreateFileAfterWorkCb mOk qOk status uv).completed =
       uv.completed ++ uv.prepare_reqs.map (fun req => (req, RAFT_IOERR))) ∧
    (∀ uv2 : UvState, uv2.prepare_inflight = none →
      uv2.prepare_pool.length < TARGET_POOL_SIZE →
      (mOk = false ∨ qOk = false) →
      (maybePrepareSegment mOk qOk uv2).errored = true ∧
      (maybePrepareSegment mOk qOk uv2).prepare_reqs = [] ∧
      ((maybePrepareSegment mOk qOk uv2).completed =
         uv2.completed ++ uv2.prepare_reqs.map (fun req => (req, RAFT_NOMEM)) ∨
       (maybePrepareSegment mOk qOk uv2).completed =
         uv2.completed ++ uv2.prepare_reqs.map (fun req => (req, RAFT_IOERR)))) := by
  constructor
  · unfold uvPrepareCreateFileAfterWorkCb
    rw [hin]
    simp [hst, uvPrepareFlushRequests]
  · intro uv2 hnone hpool hfail
    unfold maybePrepareSegment
    rw [hnone]
    rcases hfail with hf | hf <;> subst hf
    · simp [hpool, prepareSegment, uvPrepareFlushRequests, RAFT_NOMEM]
    · rcases Bool.eq_false_or_eq_true mOk with hm | hm <;> subst hm
      · simp [hpool, prepareSegment, uvPrepareFlushRequests, RAFT_IOERR]
      · simp [hpool, prepareSegment, uvPrepareFlushRequests, RAFT_NOMEM]

/-- C4 (witness for the amended theorem): a failed allocate-and-sync
with one pending request flushes it with io-error; a failed
`uv_queue_work` start flushes a pending request with its own code. -/
theorem C4_amended_witness :
    ((uvPrepareCreateFileAfterWorkCb true false 99 uvInflightReq).errored = true ∧
     (uvPrepareCreateFileAfterWorkCb true false 99 uvInflightReq).prepare_reqs = [] ∧
     (uvPrepareCreateFileAfterWorkCb true false 99 uvInflightReq).completed =
       uvInflightReq.completed ++
         uvInflightReq.prepare_reqs.map (fun req => (req, RAFT_IOERR))) ∧
    ((maybePrepareSegment true false uvOneReq).errored = true ∧
     (maybePrepareSegment true false uvOneReq).prepare_reqs = [] ∧
     ((maybePrepareSegment true false uvOneReq).completed =
        uvOneReq.completed ++ uvOneReq.prepare_reqs.map (fun req => (req, RAFT_NOMEM)) ∨
      (maybePrepareSegment true false uvOneReq).completed =
        uvOneReq.completed ++ uvOneReq.prepare_reqs.map (fun req => (req, RAFT_IOERR)))) :=
  ⟨(C4_amended uvInflightReq true false 99 5 rfl (by decide)).1,
   (C4_amended uvInflightReq true false 99 5 rfl (by decide)).2 uvOneReq rfl
     (by decide) (Or.inr rfl)⟩

/-- Satisfying requests from the pool never grows the pool. -/
theorem processPairs_pool_le (reqs pool : List Nat) :
    (processPairs reqs pool).2.2.length ≤ pool.length := by
  induction reqs generalizing pool with
  | nil => simp [processPairs]
  | cons q qs ih =>
    cases pool with
    | nil => simp [processPairs]
    | cons s ps =>
      have := ih ps
      simp only [processPairs]
      exact le_trans this (Nat.le_succ _)

/-- `uvPrepareProcessRequests` preserves the pool bound and the inflight
marker. -/
theorem uvPrepareProcessRequests_poolInv (uv : UvState) (h : poolInv uv) :
    poolInv (uvPrepareProcessRequests uv) := by
  have hle := processPairs_pool_le uv.prepare_reqs uv.prepare_pool
  have h1 : (uvPrepareProcessRequests uv).prepare_pool =
      (processPairs uv.prepare_reqs uv.prepare_pool).2.2 := rfl
  have h2 : inflightCount (uvPrepareProcessRequests uv) = inflightCount uv := rfl
  unfold poolInv at h ⊢
  rw [h1, h2]
  omega

/-- `maybePrepareSegment` preserves the pool bound. -/
theorem maybePrepareSegment_poolInv (mOk qOk : Bool) (uv : UvState)
    (h : poolInv uv) : poolInv (maybePrepareSegment mOk qOk uv) := by
  unfold maybePrepareSegment
  by_cases hin : uv.prepare_inflight.isSome
  · rw [if_pos hin]
    exact h
  · rw [if_neg hin]
    by_cases hp : uv.prepare_pool.length < TARGET_POOL_SIZE
    · rw [if_pos hp]
      rcases Bool.eq_false_or_eq_true mOk with hm | hm <;> subst hm
      · rcases Bool.eq_false_or_eq_true qOk with hq | hq <;> subst hq
        · show poolInv { uv with
            prepare_inflight := some (uv.prepare_next_counter, false),
            prepare_next_counter := uv.prepare_next_counter + 1 }
          simp [poolInv, inflightCount]
          omega
        · show poolInv { uvPrepareFlushRequests uv RAFT_IOERR with errored := true }
          simp [poolInv, inflightCount, uvPrepareFlushRequests, hin]
          omega
      · show poolInv { uvPrepareFlushRequests uv RAFT_NOMEM with errored := true }
        simp [poolInv, inflightCount, uvPrepareFlushRequests, hin]
        omega
    · rw [if_neg hp]
      exact h

/-- `uvPrepareCreateFileAfterWorkCb` preserves the pool bound. -/
theorem afterWorkCb_poolInv (mOk qOk : Bool) (status : Nat) (uv : UvState)
    (h : poolInv uv) : poolInv (uvPrepareCreateFileAfterWorkCb mOk qOk status uv) := by
  unfold uvPrepareCreateFileAfterWorkCb
  rcases hseg : uv.prepare_inflight with _ | ⟨c, b⟩
  · exact h
  · have h2 : uv.prepare_pool.length + 1 ≤ TARGET_POOL_SIZE := by
      unfold poolInv at h
      simp [inflightCount, hseg] at h
      omega
    cases b with
    | true =>
      show poolInv { uv with prepare_inflight := none }
      simp [poolInv, inflightCount]
      omega
    | false =>
      by_cases hst : status = 0
      · subst hst
        show poolInv (maybePrepareSegment mOk qOk (uvPrepareProcessRequests
          { uv with prepare_inflight := none,
                    prepare_pool := uv.prepare_pool ++ [c] }))
        apply maybePrepareSegment_poolInv
        apply uvPrepareProcessRequests_poolInv
        simp [poolInv, inflightCount]
        omega
      · show poolInv (if status ≠ 0
            then { uvPrepareFlushRequests { uv with prepare_inflight := none }
                     RAFT_IOERR with errored := true }
            else maybePrepareSegment mOk qOk (uvPrepareProcessRequests
              { uv with prepare_inflight := none,
                        prepare_pool := uv.prepare_pool ++ [c] }))
        rw [if_pos hst]
        simp [poolInv, inflightCount, uvPrepareFlushRequests]
        omega

/-- Every prepare-pool operation preserves the pool bound. -/
theorem uvStep_poolInv (uv : UvState) (op : UvOp) (h : poolInv uv) :
    poolInv (uvStep uv op) := by
  cases op with
  | request q mOk qOk =>
    show poolInv (if uv.closing = true then uv else uvPrepare mOk qOk uv q)
    by_cases hc : uv.closing
    · rw [if_pos hc]
      exact h
    · rw [if_neg hc]
      unfold uvPrepare
      apply maybePrepareSegment_poolInv
      apply uvPrepareProcessRequests_poolInv
      exact h
  | complete status mOk qOk =>
    show poolInv (if uv.prepare_inflight.isSome = true
        then uvPrepareCreateFileAfterWorkCb mOk qOk status uv else uv)
    by_cases hin : uv.prepare_inflight.isSome
    · rw [if_pos hin]
      exact afterWorkCb_poolInv mOk qOk status uv h
    · rw [if_neg hin]
      exact h
  | close =>
    show poolInv (if uv.closing = true then uv
        else uvPrepareClose { uv with closing := true })
    by_cases hc : uv.closing
    · rw [if_pos hc]
      exact h
    · rw [if_neg hc]
      rcases hopt : uv.prepare_inflight with _ | seg <;>
        simp [uvPrepareClose, uvPrepareFlushRequests, poolInv, inflightCount,
              hopt, TARGET_POOL_SIZE]

/-- The pool bound holds in every state reachable from a fresh instance. -/
theorem foldl_uvStep_poolInv (ops : List UvOp) (uv : UvState) (h : poolInv uv) :
    poolInv (ops.foldl uvStep uv) := by
  induction ops generalizing uv with
  | nil => exact h
  | cons op ops ih => exact ih (uvStep uv op) (uvStep_poolInv uv op h)

/-- C7: the prepare pool invariant.  In every state reachable from a
fresh uv instance through any sequence of prepare-pool operations
(requests, completion callbacks, close), the number of ready prepared
segments is at most `TARGET_POOL_SIZE` = 2 and at most one segment
creation is inflight. -/
theorem C7_theorem (ops : List UvOp) :
    (ops.foldl uvStep uvInit).prepare_pool.length ≤ TARGET_POOL_SIZE ∧
    inflightCount (ops.foldl uvStep uvInit) ≤ 1 := by
  have h := foldl_uvStep_poolInv ops uvInit
    (by simp [poolInv, uvInit, inflightCount])
  unfold poolInv at h
  constructor
  · omega
  · unfold inflightCount
    split <;> omega

/-- A metadata file is removed by the prune loop exactly for the listed
snapshots. -/
theorem meta_mem_uvSnapshotRemoveFiles (s : UvSnapshotInfo)
    (l : List UvSnapshotInfo) :
    SnapFile.meta s ∈ uvSnapshotRemoveFiles l ↔ s ∈ l := by
  induction l with
  | nil => simp [uvSnapshotRemoveFiles]
  | cons a as ih => simp [uvSnapshotRemoveFiles, ih]

/-- A data file is removed by the prune loop exactly for the listed
snapshots. -/
theorem data_mem_uvSnapshotRemoveFiles (s : UvSnapshotInfo)
    (l : List UvSnapshotInfo) :
    SnapFile.data s ∈ uvSnapshotRemoveFiles l ↔ s ∈ l := by
  induction l with
  | nil => simp [uvSnapshotRemoveFiles]
  | cons a as ih => simp [uvSnapshotRemoveFiles, ih]

/-- The prune step removes the files of exactly the snapshots before the
last two of the sorted listing. -/
theorem uvSnapshotKeepLastTwo_eq_removeFiles (l : List UvSnapshotInfo) :
    uvSnapshotKeepLastTwo l = uvSnapshotRemoveFiles (l.take (l.length - 2)) := by
  unfold uvSnapshotKeepLastTwo
  split
  · rename_i hle
    have h0 : l.length - 2 = 0 := by omega
    simp [h0, uvSnapshotRemoveFiles]
  · rfl

/-- The snapshot comparator never declares a snapshot older than itself. -/
theorem uvSnapshotCompare_self (a : UvSnapshotInfo) :
    uvSnapshotCompare a a = 1 := by
  simp [uvSnapshotCompare]

/-- C5: after the store has sorted its snapshot listing oldest-first by
the comparator (higher term, then higher index, then higher timestamp),
the prune step keeps exactly the two most recent snapshots and removes
both the metadata file and the data file of every other snapshot; every
removed snapshot is strictly older than every kept one, and the
comparator's notion of "more recent" is exactly the claimed
term/index/timestamp order. -/
theorem C5_theorem (l : List UvSnapshotInfo)
    (hsorted : l.Pairwise (fun a b => uvSnapshotCompare a b = -1))
    (h2 : 2 ≤ l.length) :
    (l.drop (l.length - 2)).length = 2 ∧
    (∀ s, s ∈ l → s ∈ l.drop (l.length - 2) ∨
        (SnapFile.meta s ∈ uvSnapshotKeepLastTwo l ∧
         SnapFile.data s ∈ uvSnapshotKeepLastTwo l)) ∧
    (∀ s k, SnapFile.meta s ∈ uvSnapshotKeepLastTwo l →
        k ∈ l.drop (l.length - 2) → uvSnapshotCompare s k = -1) ∧
    (∀ k, k ∈ l.drop (l.length - 2) →
        SnapFile.meta k ∉ uvSnapshotKeepLastTwo l ∧
        SnapFile.data k ∉ uvSnapshotKeepLastTwo l) ∧
    (∀ a b : UvSnapshotInfo, uvSnapshotCompare a b = -1 ↔
        (a.term < b.term ∨ (a.term = b.term ∧ a.index < b.index) ∨
         (a.term = b.term ∧ a.index = b.index ∧ a.timestamp < b.timestamp))) := by
  have hsplit : l.take (l.length - 2) ++ l.drop (l.length - 2) = l :=
    List.take_append_drop _ l
  have hcross : ∀ a ∈ l.take (l.length - 2), ∀ b ∈ l.drop (l.length - 2),
      uvSnapshotCompare a b = -1 := by
    have hp := hsorted
    rw [← hsplit] at hp
    exact (List.pairwise_append.mp hp).2.2
  rw [uvSnapshotKeepLastTwo_eq_removeFiles]
  refine ⟨?_, ?_, ?_, ?_, ?_⟩
  · rw [List.length_drop]
    omega
  · intro s hs
    rw [← hsplit] at hs
    rcases List.mem_append.mp hs with h | h
    · exact Or.inr ⟨(meta_mem_uvSnapshotRemoveFiles s _).mpr h,
                    (data_mem_uvSnapshotRemoveFiles s _).mpr h⟩
    · exact Or.inl h
  · intro s k hm hk
    exact hcross s ((meta_mem_uvSnapshotRemoveFiles s _).mp hm) k hk
  · intro k hk
    constructor
    · intro hm
      have hkk := hcross k ((meta_mem_uvSnapshotRemoveFiles k _).mp hm) k hk
      rw [uvSnapshotCompare_self] at hkk
      exact absurd hkk (by decide)
    · intro hd
      have hkk := hcross k ((data_mem_uvSnapshotRemoveFiles k _).mp hd) k hk
      rw [uvSnapshotCompare_self] at hkk
      exact absurd hkk (by decide)
  · intro a b
    unfold uvSnapshotCompare
    by_cases h1 : a.term = b.term
    · by_cases hi : a.index = b.index
      · by_cases ht : a.timestamp < b.timestamp <;>
          simp [h1, hi, ht]
      · by_cases hil : a.index < b.index <;>
          simp [h1, hi, hil]
    · by_cases htl : a.term < b.term <;>
        simp [h1, htl]

/-- C5 (witness): pruning three sorted snapshots keeps exactly two. -/
theorem C5_witness :
    (snapsSorted.drop (snapsSorted.length - 2)).length = 2 :=
  (C5_theorem snapsSorted (by decide) (by decide)).1

/-- C6: the snapshot-put worker performs its steps in the order metadata
write, data write, directory fsync, prune; the prune runs exactly when
all three previous steps succeed; any failure of the three steps makes
the put complete with io-error without pruning; and the put completes
with 0 exactly when all steps including the prune succeed. -/
theorem C6_theorem (metaOk dataOk syncOk : Bool) (pruneRv : Nat) :
    (∃ k, (uvSnapshotPutWorkCb metaOk dataOk syncOk pruneRv).2 = putStepsAll.take k) ∧
    (PutStep.prune ∈ (uvSnapshotPutWorkCb metaOk dataOk syncOk pruneRv).2 ↔
      (metaOk = true ∧ dataOk = true ∧ syncOk = true)) ∧
    ((metaOk = false ∨ dataOk = false ∨ syncOk = false) →
      (uvSnapshotPutWorkCb metaOk dataOk syncOk pruneRv).1 = RAFT_IOERR ∧
      PutStep.prune ∉ (uvSnapshotPutWorkCb metaOk dataOk syncOk pruneRv).2) ∧
    ((uvSnapshotPutWorkCb metaOk dataOk syncOk pruneRv).1 = 0 ↔
      (metaOk = true ∧ dataOk = true ∧ syncOk = true ∧ pruneRv = 0)) := by
  cases metaOk <;> cases dataOk <;> cases syncOk <;>
    by_cases hp : pruneRv = 0 <;>
      simp [uvSnapshotPutWorkCb, putStepsAll, hp, RAFT_IOERR] <;>
        first
        | exact ⟨1, rfl⟩
        | exact ⟨2, rfl⟩
        | exact ⟨3, rfl⟩
        | exact ⟨4, rfl⟩
        | exact ⟨4, Nat.le_refl 4⟩

/-- C10: loading a snapshot metadata file of valid format whose declared
configuration length is zero fails with the corrupt error, exactly as a
length above the 1 MiB bound does; consequently a successful load implies
a nonzero configuration length and a configuration decoded from the
(nonempty) configuration bytes. -/
theorem C10_theorem (crcFn : List Nat → List Nat → Nat)
    (decodeFn : List Nat → Except Nat Configuration)
    (info : UvSnapshotInfo) (f : SnapMetaFile)
    (hf : f.format = UV_DISK_FORMAT) :
    (f.conf_len = 0 →
      uvSnapshotLoadMeta crcFn decodeFn info f = Except.error RAFT_CORRUPT) ∧
    (META_MAX_CONFIGURATION_SIZE < f.conf_len →
      uvSnapshotLoadMeta crcFn decodeFn info f = Except.error RAFT_CORRUPT) ∧
    (∀ s, uvSnapshotLoadMeta crcFn decodeFn info f = Except.ok s →
      0 < f.conf_len ∧ (f.conf_bytes.take f.conf_len).length = f.conf_len ∧
      decodeFn (f.conf_bytes.take f.conf_len) = Except.ok s.configuration) := by
  refine ⟨?_, ?_, ?_⟩
  · intro h0
    simp [uvSnapshotLoadMeta, hf, h0]
  · intro hbig
    simp [uvSnapshotLoadMeta, hf, hbig]
  · intro s hs
    unfold uvSnapshotLoadMeta at hs
    split_ifs at hs with h1 h2 h3 h4 h5
    rcases hdec : decodeFn (f.conf_bytes.take f.conf_len) with rv | conf
    · rw [hdec] at hs
      exact absurd hs (by simp)
    · rw [hdec] at hs
      simp only [Except.ok.injEq] at hs
      refine ⟨by omega, ?_, ?_⟩
      · rw [List.length_take]
        omega
      · rw [← hs]

/-- C10 (witness): a zero-length configuration in an otherwise
well-formed metadata file is rejected as corrupt. -/
theorem C10_witness :
    uvSnapshotLoadMeta crcZero decodeNone infoSample metaZeroLen =
      Except.error RAFT_CORRUPT :=
  (C10_theorem crcZero decodeNone infoSample metaZeroLen rfl).1 rfl
